import Mathlib

/-!
Verification of the mslearn-dp100 notebook repository.

The repository consists of four Jupyter notebooks:
  * an auto-predict scoring cell that POSTs patient features to a REST
    endpoint and prints the returned prediction;
  * a designer-pipeline scoring cell with an HTTPError handler;
  * a data-drift monitoring notebook (baseline/target datasets, a
    simulated-drift data generator, a compute-target cell, a drift
    monitor with backfill);
  * a train-models notebook that writes two training scripts
    (plain and parameterized), submits them as experiment runs, waits,
    reads metrics and registers the resulting models.

This file shallowly embeds the notebook cells: pure computations become
Lean functions over exact rational arithmetic, the effectful cells become
functions producing explicit traces of effects, and external SDK or
library operations (scikit-learn train_test_split, model fitting, AUC
scoring) are parameters of the embedding, since the notebooks invoke but
do not implement them.
-/

set_option autoImplicit false

namespace MslearnDp100

/-! ### JSON values

A model of the Python objects produced by json.loads and consumed by
json.dumps.  Numbers are modelled as exact rationals. -/

inductive Json where
  | null : Json
  | bool (b : Bool) : Json
  | num (q : ℚ) : Json
  | str (s : String) : Json
  | arr (xs : List Json) : Json
  | obj (kvs : List (String × Json)) : Json

/-- Python equality as used in the comparison x == 1 of the scoring cell:
Python booleans compare equal to the integers 0 and 1, and numbers compare
by numeric value.  Containers and null only compare equal to themselves
(structurally); distinct kinds otherwise compare unequal, as in Python. -/
def pyEq : Json → Json → Bool
  | Json.num a, Json.num b => a == b
  | Json.bool a, Json.num b => (if a then (1 : ℚ) else 0) == b
  | Json.num a, Json.bool b => a == (if b then (1 : ℚ) else 0)
  | Json.bool a, Json.bool b => a == b
  | Json.str a, Json.str b => a == b
  | Json.null, Json.null => true
  | _, _ => false

/-- Rendering of a rational number for serialization. -/
def numRepr (q : ℚ) : String :=
  if q.den = 1 then toString q.num else toString q

/-- Model of Python json.dumps: serialize a JSON value to a string. -/
def dumps : Json → String
  | Json.null => "null"
  | Json.bool true => "true"
  | Json.bool false => "false"
  | Json.num q => numRepr q
  | Json.str s => "\x22" ++ s ++ "\x22"
  | Json.arr xs => "[" ++ String.intercalate ", " (xs.attach.map (fun x => dumps x.1)) ++ "]"
  | Json.obj kvs =>
      "\x7b" ++
        String.intercalate ", "
          (kvs.attach.map (fun kv => "\x22" ++ kv.1.1 ++ "\x22: " ++ dumps kv.1.2)) ++
      "\x7d"
termination_by j => sizeOf j
decreasing_by
  · have h := List.sizeOf_lt_of_mem x.2
    simp only [Json.arr.sizeOf_spec]
    omega
  · obtain ⟨⟨s, j⟩, hm⟩ := kv
    have h := List.sizeOf_lt_of_mem hm
    simp only [Prod.mk.sizeOf_spec] at h
    simp only [Json.obj.sizeOf_spec]
    omega

/-- Python dict subscript y[k]: look the key up in an object. -/
def jGet (j : Json) (k : String) : Option Json :=
  match j with
  | Json.obj kvs => (kvs.find? (fun kv => kv.1 == k)).map (fun kv => kv.2)
  | _ => none

/-- The expression y["result"][0] of the auto-predict scoring cell:
the first element of the "result" field, when it exists. -/
def firstResult (y : Json) : Option Json :=
  match jGet y "result" with
  | some (Json.arr (v :: _)) => some v
  | _ => none

/-! ### Observable effects of the scoring cells -/

/-- Side effects performed by the scoring cells: issuing the HTTP request,
parsing the response body as JSON, and the various print statements. -/
inductive Effect where
  | post (url : String) (body : String) (headers : List (String × String))
  | parseJson
  | printVal (tag : String) (v : Json)
  | printOut (s : String)
  | printResponse (status : ℕ)
  | raiseErr

/-- Recognizer for the print effects. -/
def Effect.isPrint : Effect → Bool
  | Effect.printVal _ _ => true
  | Effect.printOut _ => true
  | Effect.printResponse _ => true
  | _ => false

/-- Recognizer for the request effect. -/
def Effect.isPost : Effect → Bool
  | Effect.post _ _ _ => true
  | _ => false

/-! ### The auto-predict scoring cell -/

def autoEndpoint : String :=
  "http://ef65c346-92b3-4662-bf6f-feaf9fb0a35f.northcentralus.azurecontainer.io/score"

def autoKey : String := "jXPlpIjuLKterehGtsHzsP5pHnqAxb5V"

/-- The patient-feature record x of the auto-predict cell. -/
def patientRecord : Json :=
  Json.obj
    [("PatientID", Json.num 1),
     ("Pregnancies", Json.num 4),
     ("PlasmaGlucose", Json.num 120),
     ("DiastolicBloodPressure", Json.num (906/10)),
     ("TricepsThickness", Json.num 20),
     ("SerumInsulin", Json.num 23),
     ("BMI", Json.num (2351/100)),
     ("DiabetesPedigree", Json.num (21/100)),
     ("Age", Json.num 21)]

/-- The "data" JSON object of the request: json.dumps with a data field
holding the list of patient records. -/
def autoInputJson : String := dumps (Json.obj [("data", Json.arr [patientRecord])])

/-- The content type and authentication headers of the request. -/
def autoHeaders : List (String × String) :=
  [("Content-Type", "application/json"), ("Authorization", "Bearer " ++ autoKey)]

/-- The HTTP response observed by the cell.  The field parsed is the JSON
value that json.loads(response.json()) yields when the body is parsed. -/
structure ScoreResponse where
  status : ℕ
  parsed : Json

/-- The print statement of the prediction branch:
if y["result"][0] == 1 print Diabetic, else print Not Diabetic. -/
def diabeticLine (v : Json) : String :=
  if pyEq v (Json.num 1) then "Diabetic" else "Not Diabetic"

/-- Effects performed by the auto-predict cell after the response arrives:
on status code 200 it parses the body and prints the first prediction,
otherwise it prints the response object. -/
def autoRespEffects (resp : ScoreResponse) : List Effect :=
  if resp.status = 200 then
    match firstResult resp.parsed with
    | some v =>
        [Effect.parseJson,
         Effect.printVal "Prediction:" v,
         Effect.printOut (diabeticLine v)]
    | none => [Effect.parseJson, Effect.raiseErr]
  else
    [Effect.printResponse resp.status]

/-- The complete effect trace of the auto-predict scoring cell:
one requests.post call followed by the response handling. -/
def autoPredictTrace (resp : ScoreResponse) : List Effect :=
  Effect.post autoEndpoint autoInputJson autoHeaders :: autoRespEffects resp

/-! ### The designer-pipeline scoring cell -/

def designerEndpoint : String :=
  "http://21157181-fee4-42c6-a853-e7a37911c695.northcentralus.azurecontainer.io/score"

def designerKey : String := "mM1e4m9HLXpY8p3GUTk6ude0BZOvjOGh"

/-- The request payload of the designer-pipeline cell. -/
def designerData : Json :=
  Json.obj
    [("Inputs",
      Json.obj
        [("WebServiceInput0",
          Json.arr
            [Json.obj
              [("PatientID", Json.num 1882185),
               ("Pregnancies", Json.num 9),
               ("PlasmaGlucose", Json.num 104),
               ("DiastolicBloodPressure", Json.num 51),
               ("TricepsThickness", Json.num 7),
               ("SerumInsulin", Json.num 24),
               ("BMI", Json.num (2736983156/100000000)),
               ("DiabetesPedigree", Json.num (13504720469999998/10000000000000000)),
               ("Age", Json.num 43)]])]),
     ("GlobalParameters", Json.obj [])]

def designerHeaders : List (String × String) :=
  [("Content-Type", "application/json"), ("Authorization", "Bearer " ++ designerKey)]

/-- The body of the except urllib.error.HTTPError handler of the
designer-pipeline cell: it prints the status code, the response headers
and the decoded error body, and nothing else. -/
def designerHttpErrorHandlerEffects (code : ℕ) (info : String) (body : Json) : List Effect :=
  [Effect.printOut ("The request failed with status code: " ++ toString code),
   Effect.printOut info,
   Effect.printVal "" body]

/-- Outcome of the urlopen call of the designer-pipeline cell. -/
inductive DesignerOutcome where
  | success (output : Json)
  | httpError (code : ℕ) (info : String) (body : Json)

/-- The complete effect trace of the designer-pipeline cell. -/
def designerTrace : DesignerOutcome → List Effect
  | DesignerOutcome.success output =>
      [Effect.post designerEndpoint (dumps designerData) designerHeaders,
       Effect.parseJson,
       Effect.printVal "Patient/Prediction/Probability" output]
  | DesignerOutcome.httpError code info body =>
      Effect.post designerEndpoint (dumps designerData) designerHeaders ::
        designerHttpErrorHandlerEffects code info body

/-! ### The compute-target cell of the drift notebook -/

/-- SDK calls and prints made by the compute-target cell. -/
inductive ComputeEffect where
  | lookupTarget (name : String)
  | provisionConfig (vmSize : String) (maxNodes : ℕ)
  | createTarget (name : String)
  | waitCreate
  | printMsg (s : String)
  | printExc
deriving DecidableEq

/-- Recognizer for the print effects of the compute-target cell. -/
def ComputeEffect.isPrintC : ComputeEffect → Bool
  | ComputeEffect.printMsg _ => true
  | ComputeEffect.printExc => true
  | _ => false

def clusterName : String := "dp100cluster"

/-- The body of the inner except Exception handler of the compute-target
cell: print(ex) and nothing else. -/
def innerExceptionHandlerEffects : List ComputeEffect := [ComputeEffect.printExc]

/-- The body of the except ComputeTargetException handler of the
compute-target cell: it attempts to create the missing cluster
(provisioning configuration, ComputeTarget.create, wait_for_completion),
printing the exception if any of those inner calls fails.  failPoint
selects which inner call, if any, raises: 0 the provisioning
configuration, 1 the create call, 2 the wait; any larger value means the
recovery succeeds. -/
def computeTargetExceptionHandler (failPoint : ℕ) : List ComputeEffect :=
  match failPoint with
  | 0 => [ComputeEffect.provisionConfig "STANDARD_DS11_V2" 2] ++ innerExceptionHandlerEffects
  | 1 => [ComputeEffect.provisionConfig "STANDARD_DS11_V2" 2,
          ComputeEffect.createTarget clusterName] ++ innerExceptionHandlerEffects
  | 2 => [ComputeEffect.provisionConfig "STANDARD_DS11_V2" 2,
          ComputeEffect.createTarget clusterName,
          ComputeEffect.waitCreate] ++ innerExceptionHandlerEffects
  | _ => [ComputeEffect.provisionConfig "STANDARD_DS11_V2" 2,
          ComputeEffect.createTarget clusterName,
          ComputeEffect.waitCreate]

/-- The complete effect trace of the compute-target cell: look the target
up; if it exists print that it was found, otherwise the
ComputeTargetException handler runs. -/
def computeCellTrace (targetExists : Bool) (failPoint : ℕ) : List ComputeEffect :=
  ComputeEffect.lookupTarget clusterName ::
    (if targetExists then [ComputeEffect.printMsg "Found existing cluster, use it."]
     else computeTargetExceptionHandler failPoint)

/-! ### Step sequences of the notebooks

The train-models notebook and the drift notebook are linear sequences of
SDK calls.  We record the order of the calls that matter for the
temporal claims: submissions, blocking waits, metric reads and model
registrations, each tagged with the run object it acts on. -/

/-- The run objects appearing in the notebooks: the two training
experiment runs and the drift-monitor backfill run. -/
inductive RunId where
  | train1
  | train2
  | backfill1
deriving DecidableEq, Fintype

/-- One notebook step, in source order. -/
inductive Step where
  | connectWorkspace
  | prepareFolder
  | writeTrainingScript
  | createEnvironment
  | submit (r : RunId)
  | showRunDetails (r : RunId)
  | waitForCompletion (r : RunId)
  | getMetrics (r : RunId)
  | getFileNames (r : RunId)
  | registerModel (r : RunId)
  | listModels
  | pipShowPackage
  | uploadBaselineFiles
  | registerBaselineDataset
  | generateTargetFiles
  | uploadTargetFiles
  | registerTargetDataset
  | ensureComputeTarget
  | createDriftMonitor
  | backfillSubmit (r : RunId)
deriving DecidableEq

/-- The step sequence of the train-models notebook.  The register-model
cells evaluate run.get_metrics() twice (for the AUC and Accuracy
properties) before the register_model call itself. -/
def trainNotebookSteps : List Step :=
  [Step.connectWorkspace,
   Step.prepareFolder,
   Step.writeTrainingScript,
   Step.createEnvironment,
   Step.submit RunId.train1,
   Step.showRunDetails RunId.train1,
   Step.waitForCompletion RunId.train1,
   Step.getMetrics RunId.train1,
   Step.getFileNames RunId.train1,
   Step.getMetrics RunId.train1,
   Step.getMetrics RunId.train1,
   Step.registerModel RunId.train1,
   Step.listModels,
   Step.prepareFolder,
   Step.writeTrainingScript,
   Step.submit RunId.train2,
   Step.showRunDetails RunId.train2,
   Step.waitForCompletion RunId.train2,
   Step.getMetrics RunId.train2,
   Step.getFileNames RunId.train2,
   Step.getMetrics RunId.train2,
   Step.getMetrics RunId.train2,
   Step.registerModel RunId.train2,
   Step.listModels]

/-- The step sequence of the drift-monitoring notebook. -/
def driftNotebookSteps : List Step :=
  [Step.pipShowPackage,
   Step.connectWorkspace,
   Step.uploadBaselineFiles,
   Step.registerBaselineDataset,
   Step.generateTargetFiles,
   Step.uploadTargetFiles,
   Step.registerTargetDataset,
   Step.ensureComputeTarget,
   Step.createDriftMonitor,
   Step.backfillSubmit RunId.backfill1,
   Step.showRunDetails RunId.backfill1,
   Step.waitForCompletion RunId.backfill1,
   Step.getMetrics RunId.backfill1]

/-- Every get_metrics call on a run is preceded by a wait_for_completion
call on that same run. -/
abbrev metricsAfterWait (steps : List Step) : Prop :=
  ∀ i : Fin steps.length, ∀ r : RunId,
    steps.get i = Step.getMetrics r →
      Step.waitForCompletion r ∈ steps.take i.val

/-- Every submission (experiment submit or drift-monitor backfill) of a
run is followed by a wait_for_completion call on that same run. -/
abbrev submitThenWait (steps : List Step) : Prop :=
  ∀ i : Fin steps.length, ∀ r : RunId,
    (steps.get i = Step.submit r ∨ steps.get i = Step.backfillSubmit r) →
      Step.waitForCompletion r ∈ steps.drop (i.val + 1)

/-- Every register_model call on a run is preceded by both the submission
of that run and a wait_for_completion call on it. -/
abbrev registerAfterWait (steps : List Step) : Prop :=
  ∀ i : Fin steps.length, ∀ r : RunId,
    steps.get i = Step.registerModel r →
      Step.waitForCompletion r ∈ steps.take i.val ∧
        Step.submit r ∈ steps.take i.val

/-- Every wait_for_completion on a run is preceded by its submission. -/
abbrev waitAfterSubmit (steps : List Step) : Prop :=
  ∀ i : Fin steps.length, ∀ r : RunId,
    steps.get i = Step.waitForCompletion r →
      (Step.submit r ∈ steps.take i.val ∨ Step.backfillSubmit r ∈ steps.take i.val)

/-! ### The training scripts

Both training scripts written by the train-models notebook load
diabetes.csv, select the same eight feature columns and the Diabetic
label, split with train_test_split(test_size=0.30, random_state=0),
fit a logistic regression with C = 1/reg, and log three metrics.
The scikit-learn library functions are parameters of the embedding. -/

/-- A CSV row: column name to numeric value. -/
abbrev Row : Type := String → ℚ

/-- The feature column list of both training scripts. -/
def featureColumns : List String :=
  ["Pregnancies", "PlasmaGlucose", "DiastolicBloodPressure", "TricepsThickness",
   "SerumInsulin", "BMI", "DiabetesPedigree", "Age"]

/-- The feature matrix X of the scripts: the values of the feature
columns of every row, in order. -/
def featuresOf (df : List Row) : List (List ℚ) :=
  df.map (fun r => featureColumns.map r)

/-- The label vector y of the scripts: the Diabetic column. -/
def labelsOf (df : List Row) : List ℚ :=
  df.map (fun r => r "Diabetic")

/-- Result of train_test_split. -/
structure SplitResult where
  xTrain : List (List ℚ)
  xTest : List (List ℚ)
  yTrain : List ℚ
  yTest : List ℚ

/-- Model of sklearn.model_selection.train_test_split: a deterministic
function of the test_size, the random_state and the data.  The library is
external, so the embedding quantifies over it. -/
def SplitFn : Type := ℚ → ℕ → List (List ℚ) → List ℚ → SplitResult

/-- A fitted classifier: its predict method and the positive-class column
of its predict_proba method. -/
structure FittedModel where
  predict : List ℚ → ℚ
  probaPos : List ℚ → ℚ

/-- Model of LogisticRegression(C, solver=liblinear).fit: a function of
the regularization parameter C and the training data. -/
def FitFn : Type := ℚ → List (List ℚ) → List ℚ → FittedModel

/-- Model of sklearn.metrics.roc_auc_score. -/
def AucFn : Type := List ℚ → List ℚ → ℚ

/-- Model of np.average on a list of numbers. -/
def npAverage (l : List ℚ) : ℚ := l.sum / (l.length : ℚ)

/-- Elementwise indicator of y_hat == y_test. -/
def eqIndicator (yHat yTest : List ℚ) : List ℚ :=
  List.zipWith (fun a b => if a = b then (1 : ℚ) else 0) yHat yTest

/-- The train_test_split call of the plain training script:
train_test_split(X, y, test_size=0.30, random_state=0). -/
def plainScriptSplit (split : SplitFn) (df : List Row) : SplitResult :=
  split (30/100) 0 (featuresOf df) (labelsOf df)

/-- The train_test_split call of the parameterized training script:
train_test_split(X, y, test_size=0.30, random_state=0). -/
def paramScriptSplit (split : SplitFn) (df : List Row) : SplitResult :=
  split (30/100) 0 (featuresOf df) (labelsOf df)

/-- Output of one execution of a training script: the metrics logged to
the run, in order, and the filename of the saved model. -/
structure TrainOutput where
  logs : List (String × ℚ)
  savedFile : String

/-- The plain training script diabetes_training.py: regularization rate
fixed at 0.01, logs Regularization Rate, Accuracy and AUC. -/
def diabetes_training (split : SplitFn) (fit : FitFn) (aucFn : AucFn)
    (diabetes : List Row) : TrainOutput :=
  let s := plainScriptSplit split diabetes
  let reg : ℚ := 1/100
  let model := fit (1/reg) s.xTrain s.yTrain
  let yHat := s.xTest.map model.predict
  let acc := npAverage (eqIndicator yHat s.yTest)
  let yScores := s.xTest.map model.probaPos
  let auc := aucFn s.yTest yScores
  { logs := [("Regularization Rate", reg), ("Accuracy", acc), ("AUC", auc)],
    savedFile := "outputs/diabetes_model.pkl" }

/-- The parameterized training script: as the plain one, but the
regularization rate comes from the --reg_rate argument (default 0.01). -/
def diabetes_training_params (split : SplitFn) (fit : FitFn) (aucFn : AucFn)
    (regArg : Option ℚ) (diabetes : List Row) : TrainOutput :=
  let reg : ℚ := regArg.getD (1/100)
  let s := paramScriptSplit split diabetes
  let model := fit (1/reg) s.xTrain s.yTrain
  let yHat := s.xTest.map model.predict
  let acc := npAverage (eqIndicator yHat s.yTest)
  let yScores := s.xTest.map model.probaPos
  let auc := aucFn s.yTest yScores
  { logs := [("Regularization Rate", reg), ("Accuracy", acc), ("AUC", auc)],
    savedFile := "outputs/diabetes_model.pkl" }

/-! ### The simulated-drift data generator

The drift notebook reads diabetes2.csv and, iterating over
reversed(range(6)), repeatedly mutates the same dataframe in place
(Pregnancies + 1, Age rounded after scaling by 1.2, BMI scaled by 1.1)
and writes one dated file per iteration. -/

/-- A row of the drift data, with the three mutated columns explicit and
the remaining columns carried unchanged. -/
structure DriftRow where
  pregnancies : ℤ
  age : ℤ
  bmi : ℚ
  rest : List ℚ
deriving DecidableEq

/-- Rounding to the nearest integer, ties to even: the rounding used by
pandas Series.round (numpy rounding). -/
def roundHalfEven (q : ℚ) : ℤ :=
  let f := Int.fdiv q.num q.den
  let frac := q - f
  if frac < 1/2 then f
  else if 1/2 < frac then f + 1
  else if f % 2 = 0 then f else f + 1

/-- One application of the Age mutation:
round(age * 1.2) cast to int. -/
def ageStep (a : ℤ) : ℤ := roundHalfEven ((a : ℚ) * (12/10))

/-- One iteration of the in-place dataframe mutation. -/
def driftMutate (r : DriftRow) : DriftRow :=
  { pregnancies := r.pregnancies + 1,
    age := ageStep r.age,
    bmi := r.bmi * (11/10),
    rest := r.rest }

/-- The generator loop: for each remaining week number, mutate the
dataframe once more and emit the file (dated weekno weeks before today,
in days) with the current dataframe contents. -/
def driftGen (today : ℤ) : List ℕ → List DriftRow → List (ℤ × List DriftRow)
  | [], _ => []
  | w :: ws, d =>
      let d1 := d.map driftMutate
      (today - 7 * (w : ℤ), d1) :: driftGen today ws d1

/-- reversed(range(6)). -/
def weekNumbers : List ℕ := (List.range 6).reverse

/-- The six files written by the simulated-drift data generator:
date (in days relative to today) and contents of each. -/
def simulatedDriftFiles (today : ℤ) (data : List DriftRow) : List (ℤ × List DriftRow) :=
  driftGen today weekNumbers data

/-- Closed form of the row after k compounded mutations. -/
def driftRowAfter (k : ℕ) (r : DriftRow) : DriftRow :=
  { pregnancies := r.pregnancies + k,
    age := ageStep^[k] r.age,
    bmi := r.bmi * (11/10)^k,
    rest := r.rest }

/-! ### Helper lemmas -/

lemma weekNumbers_eq : weekNumbers = [5, 4, 3, 2, 1, 0] := by decide

lemma driftMutate_iterate (k : ℕ) (r : DriftRow) :
    driftMutate^[k] r = driftRowAfter k r := by
  induction k generalizing r with
  | zero =>
      simp [driftRowAfter]
  | succ k ih =>
      rw [Function.iterate_succ_apply', ih, driftMutate, driftRowAfter, driftRowAfter]
      simp only [DriftRow.mk.injEq]
      refine ⟨?_, ?_, ?_, trivial⟩
      · push_cast
        ring
      · rw [Function.iterate_succ_apply']
      · ring

lemma driftGen_get (today : ℤ) (ws : List ℕ) :
    ∀ (d : List DriftRow) (i : ℕ), i < ws.length →
      (driftGen today ws d).get? i =
        some (today - 7 * (((ws.get? i).getD 0 : ℕ) : ℤ),
              d.map (fun r => driftMutate^[i + 1] r)) := by
  induction ws with
  | nil =>
      intro d i h
      simp at h
  | cons w ws ih =>
      intro d i h
      cases i with
      | zero =>
          simp [driftGen]
      | succ i =>
          have hi : i < ws.length := by
            simpa using h
          simp only [driftGen, List.get?]
          rw [ih (d.map driftMutate) i hi]
          simp [List.map_map, Function.comp, Function.iterate_succ_apply]

/-! ### Claim C8: compounding of the simulated-drift mutations -/

/-- C8: in the simulated-drift data generator the feature mutations
compound across iterations, because the same dataframe is mutated in
place: for every k from 1 to 6, the k-th file written carries the date
(6 - k) weeks before today and each row has Pregnancies increased by k,
BMI multiplied by (11/10)^k and Age transformed k times by the rounding
step; the six files are generated oldest date first. -/
theorem drift_files_compound_mutations (today : ℤ) (data : List DriftRow) (k : ℕ)
    (h1 : 1 ≤ k) (h2 : k ≤ 6) :
    (simulatedDriftFiles today data).get? (k - 1) =
      some (today - 7 * (6 - (k : ℤ)), data.map (driftRowAfter k)) ∧
    (simulatedDriftFiles today data).map Prod.fst =
      [today - 35, today - 28, today - 21, today - 14, today - 7, today] ∧
    List.Chain' (· < ·) ((simulatedDriftFiles today data).map Prod.fst) := by
  refine ⟨?_, ?_, ?_⟩
  · have hlen : k - 1 < weekNumbers.length := by
      rw [weekNumbers_eq]
      simp
      omega
    rw [simulatedDriftFiles, driftGen_get today weekNumbers data (k - 1) hlen]
    have hk : k - 1 + 1 = k := by omega
    rw [hk]
    have hw : ((weekNumbers.get? (k - 1)).getD 0) = 6 - k := by
      rw [weekNumbers_eq]
      interval_cases k <;> rfl
    rw [hw]
    have hcast : ((6 - k : ℕ) : ℤ) = 6 - (k : ℤ) := by omega
    rw [hcast]
    simp only [driftMutate_iterate]
  · rw [simulatedDriftFiles, weekNumbers_eq]
    simp [driftGen]
  · rw [simulatedDriftFiles, weekNumbers_eq]
    simp [driftGen, List.chain'_cons]

/-- A concrete input dataframe used to instantiate the drift-generator
theorems. -/
def sampleDriftRows : List DriftRow := [⟨1, 10, 2, []⟩]

/-- Witness for C8 at today = 0, one concrete row, k = 2. -/
theorem drift_files_compound_mutations_witness :
    (simulatedDriftFiles 0 sampleDriftRows).get? (2 - 1) =
      some (0 - 7 * (6 - ((2 : ℕ) : ℤ)), sampleDriftRows.map (driftRowAfter 2)) ∧
    (simulatedDriftFiles 0 sampleDriftRows).map Prod.fst =
      [0 - 35, 0 - 28, 0 - 21, 0 - 14, 0 - 7, 0] ∧
    List.Chain' (· < ·) ((simulatedDriftFiles 0 sampleDriftRows).map Prod.fst) :=
  drift_files_compound_mutations 0 sampleDriftRows 2 (by norm_num) (by norm_num)

/-! ### Claim C2: deterministic local computation does exist -/

/-- The drift-generator contents do not depend on the date the notebook
runs: only the file names carry the date. -/
lemma driftGen_snd_indep (t1 t2 : ℤ) :
    ∀ (ws : List ℕ) (d : List DriftRow),
      (driftGen t1 ws d).map Prod.snd = (driftGen t2 ws d).map Prod.snd := by
  intro ws
  induction ws with
  | nil => intro d; rfl
  | cons w ws ih =>
      intro d
      simp [driftGen, ih]

/-- C2 counterexample: the simulated-drift data generator is a locally
computed deterministic function of its input rows.  Two runs at two
different dates (0 and 20000 days) on the same concrete input produce
byte-identical file contents, six files each, while the file dates do
differ, so a two-run input-determines-output statement does hold of this
local computation, contradicting the claim. -/
theorem drift_generator_concrete_two_run_determinism :
    (simulatedDriftFiles 0 sampleDriftRows).map Prod.snd =
      (simulatedDriftFiles 20000 sampleDriftRows).map Prod.snd ∧
    (simulatedDriftFiles 0 sampleDriftRows).length = 6 ∧
    (simulatedDriftFiles 0 sampleDriftRows).map Prod.fst ≠
      (simulatedDriftFiles 20000 sampleDriftRows).map Prod.fst := by
  refine ⟨driftGen_snd_indep 0 20000 weekNumbers sampleDriftRows, rfl, ?_⟩
  rw [simulatedDriftFiles, simulatedDriftFiles, weekNumbers_eq]
  simp [driftGen]

/-- C2 amended: deterministic, implementable local core logic does exist
in the repository: the simulated-drift data generator computes its file
contents as a deterministic function of the input rows alone, independent
of the date of the run, so an input-determines-output property holds of
it. -/
theorem drift_generator_contents_input_determined (t1 t2 : ℤ) (data : List DriftRow) :
    (simulatedDriftFiles t1 data).map Prod.snd =
      (simulatedDriftFiles t2 data).map Prod.snd :=
  driftGen_snd_indep t1 t2 weekNumbers data

/-! ### Claims C4 and C6: temporal order of the notebook steps -/

/-- C4: every submission of a run to the external platform (a
training-experiment submit or a drift-monitor backfill) is followed by a
blocking wait for completion, and in the step sequence of each notebook
no get_metrics call on a run precedes the wait_for_completion call on
that run. -/
theorem runs_waited_before_metrics :
    metricsAfterWait trainNotebookSteps ∧ metricsAfterWait driftNotebookSteps ∧
    submitThenWait trainNotebookSteps ∧ submitThenWait driftNotebookSteps := by
  refine ⟨?_, ?_, ?_, ?_⟩ <;> decide

/-- C6: the train-models notebook submits each scripted training run,
then blocks on wait_for_completion, and only afterwards registers the
resulting model: register_model on a run is never reached before
wait_for_completion on that run has returned, and every wait follows the
corresponding submission. -/
theorem train_notebook_submit_wait_register_order :
    registerAfterWait trainNotebookSteps ∧ waitAfterSubmit trainNotebookSteps ∧
    waitAfterSubmit driftNotebookSteps := by
  refine ⟨?_, ?_, ?_⟩ <;> decide

/-! ### Claim C1: what the exception handlers do -/

/-- C1 counterexample: the ComputeTargetException handler of the
compute-target cell does not only print: its trace contains the
ComputeTarget.create call on the cluster, a recovery action that changes
external state, in every configuration (here the one where the recovery
succeeds). -/
theorem compute_handler_not_print_only :
    ComputeEffect.createTarget clusterName ∈ computeTargetExceptionHandler 3 ∧
    ComputeEffect.isPrintC (ComputeEffect.createTarget clusterName) = false ∧
    ¬ (∀ e ∈ computeTargetExceptionHandler 3, ComputeEffect.isPrintC e = true) := by
  refine ⟨by decide, by decide, by decide⟩

/-- C1 amended: the HTTPError handler of the designer scoring cell and
the inner generic Exception handler of the compute-target cell only print
information and perform no retry or recovery action; the
ComputeTargetException handler, however, recovers from the
compute-target-not-found case by provisioning and creating the compute
cluster, so its trace always contains a non-print action. -/
theorem error_handlers_print_except_compute_recovery :
    (∀ (code : ℕ) (info : String) (body : Json),
      ∀ e ∈ designerHttpErrorHandlerEffects code info body, Effect.isPrint e = true) ∧
    (∀ e ∈ innerExceptionHandlerEffects, ComputeEffect.isPrintC e = true) ∧
    (∀ failPoint : ℕ,
      ∃ e ∈ computeTargetExceptionHandler failPoint, ComputeEffect.isPrintC e = false) := by
  refine ⟨?_, by decide, ?_⟩
  · intro code info body e he
    simp only [designerHttpErrorHandlerEffects, List.mem_cons, List.mem_singleton,
      List.not_mem_nil, or_false] at he
    rcases he with h | h | h <;> subst h <;> rfl
  · intro failPoint
    refine ⟨ComputeEffect.provisionConfig "STANDARD_DS11_V2" 2, ?_, rfl⟩
    match failPoint with
    | 0 => decide
    | 1 => decide
    | 2 => decide
    | n + 3 => simp [computeTargetExceptionHandler]

/-- Witness for C1 amended at a concrete handler invocation. -/
theorem error_handlers_print_except_compute_recovery_witness :
    Effect.isPrint (Effect.printOut ("The request failed with status code: " ++ toString 403)) =
      true ∧
    ComputeEffect.isPrintC ComputeEffect.printExc = true ∧
    (∃ e ∈ computeTargetExceptionHandler 0, ComputeEffect.isPrintC e = false) :=
  ⟨error_handlers_print_except_compute_recovery.1 403 "headers" Json.null
      (Effect.printOut ("The request failed with status code: " ++ toString 403))
      (by simp [designerHttpErrorHandlerEffects]),
   error_handlers_print_except_compute_recovery.2.1 ComputeEffect.printExc
      (by simp [innerExceptionHandlerEffects]),
   error_handlers_print_except_compute_recovery.2.2 0⟩

/-! ### Claim C3: request and response behavior of the scoring client -/

/-- C3: the scoring client sends one POST whose body is the JSON
serialization of an object with a data field holding the list of
patient-feature records, with Content-Type application/json and a
Bearer-key Authorization header; it parses the response body as JSON if
and only if the status code is 200, in which case it prints the first
element of the result field and the prediction line; otherwise it prints
the response object; in every case it makes no further request. -/
theorem auto_predict_request_response_behavior (resp : ScoreResponse) (v : Json)
    (hv : firstResult resp.parsed = some v) :
    (autoPredictTrace resp).head? =
      some (Effect.post autoEndpoint
        (dumps (Json.obj [("data", Json.arr [patientRecord])]))
        [("Content-Type", "application/json"), ("Authorization", "Bearer " ++ autoKey)]) ∧
    (Effect.parseJson ∈ autoPredictTrace resp ↔ resp.status = 200) ∧
    (resp.status = 200 →
      autoRespEffects resp =
        [Effect.parseJson, Effect.printVal "Prediction:" v,
         Effect.printOut (diabeticLine v)]) ∧
    (resp.status ≠ 200 → autoRespEffects resp = [Effect.printResponse resp.status]) ∧
    (autoPredictTrace resp).countP (fun e => Effect.isPost e) = 1 := by
  by_cases h : resp.status = 200
  · refine ⟨?_, ?_, fun _ => ?_, fun hne => absurd h hne, ?_⟩ <;>
      simp [autoPredictTrace, autoRespEffects, h, hv, autoInputJson, autoHeaders,
        List.countP_cons, Effect.isPost]
  · refine ⟨?_, ?_, fun h200 => absurd h200 h, fun _ => ?_, ?_⟩ <;>
      simp [autoPredictTrace, autoRespEffects, h, autoInputJson, autoHeaders,
        List.countP_cons, Effect.isPost]

/-- A concrete 200 response whose result field holds the prediction 1. -/
def okResponse : ScoreResponse :=
  ⟨200, Json.obj [("result", Json.arr [Json.num 1])]⟩

/-- Witness for C3 at the concrete 200 response. -/
theorem auto_predict_request_response_behavior_witness :
    (autoPredictTrace okResponse).head? =
      some (Effect.post autoEndpoint
        (dumps (Json.obj [("data", Json.arr [patientRecord])]))
        [("Content-Type", "application/json"), ("Authorization", "Bearer " ++ autoKey)]) ∧
    (Effect.parseJson ∈ autoPredictTrace okResponse ↔ okResponse.status = 200) ∧
    (okResponse.status = 200 →
      autoRespEffects okResponse =
        [Effect.parseJson, Effect.printVal "Prediction:" (Json.num 1),
         Effect.printOut (diabeticLine (Json.num 1))]) ∧
    (okResponse.status ≠ 200 →
      autoRespEffects okResponse = [Effect.printResponse okResponse.status]) ∧
    (autoPredictTrace okResponse).countP (fun e => Effect.isPost e) = 1 :=
  auto_predict_request_response_behavior okResponse (Json.num 1) rfl

/-! ### Claim C9: the prediction branch -/

/-- C9 counterexample: the prediction branch prints Diabetic for the
boolean value true as well, because the Python comparison == 1 also
accepts True; true is not the integer 1, so the as-stated biconditional
(Diabetic if and only if the element equals the integer 1) fails at this
concrete unexpected value. -/
theorem prediction_branch_bool_true_counterexample :
    diabeticLine (Json.bool true) = "Diabetic" ∧ Json.bool true ≠ Json.num 1 := by
  constructor
  · simp [diabeticLine, pyEq]
  · intro h
    exact Json.noConfusion h

/-- C9 amended: on a 200 response whose parsed result list starts with v,
the cell prints the prediction line, and that line is Diabetic if and
only if v compares equal to 1 under Python semantics, i.e. v is the
number 1 or the boolean true; every other value yields Not Diabetic. -/
theorem prediction_branch_diabetic_iff_py_one (resp : ScoreResponse) (v : Json)
    (hv : firstResult resp.parsed = some v) (h200 : resp.status = 200) :
    Effect.printOut (diabeticLine v) ∈ autoPredictTrace resp ∧
    (diabeticLine v = "Diabetic" ↔ (v = Json.num 1 ∨ v = Json.bool true)) ∧
    (diabeticLine v = "Diabetic" ∨ diabeticLine v = "Not Diabetic") := by
  refine ⟨?_, ?_, ?_⟩
  · simp [autoPredictTrace, autoRespEffects, h200, hv]
  · cases v with
    | null => simp [diabeticLine, pyEq]
    | bool b => cases b <;> simp [diabeticLine, pyEq]
    | num q =>
        by_cases hq : q = 1
        · subst hq
          simp [diabeticLine, pyEq]
        · simp [diabeticLine, pyEq, hq]
    | str s => simp [diabeticLine, pyEq]
    | arr xs => simp [diabeticLine, pyEq]
    | obj kvs => simp [diabeticLine, pyEq]
  · rw [diabeticLine]
    split <;> simp

/-- A concrete 200 response whose result field holds the prediction 0. -/
def zeroResponse : ScoreResponse :=
  ⟨200, Json.obj [("result", Json.arr [Json.num 0])]⟩

/-- Witness for C9 amended at the concrete 200 response with result 0. -/
theorem prediction_branch_diabetic_iff_py_one_witness :
    Effect.printOut (diabeticLine (Json.num 0)) ∈ autoPredictTrace zeroResponse ∧
    (diabeticLine (Json.num 0) = "Diabetic" ↔
      (Json.num 0 = Json.num 1 ∨ Json.num 0 = Json.bool true)) ∧
    (diabeticLine (Json.num 0) = "Diabetic" ∨ diabeticLine (Json.num 0) = "Not Diabetic") :=
  prediction_branch_diabetic_iff_py_one zeroResponse (Json.num 0) rfl rfl

/-! ### Claim C5: the feature and label selection of the scripts -/

/-- C5: both training scripts build the feature matrix X from exactly the
eight columns Pregnancies, PlasmaGlucose, DiastolicBloodPressure,
TricepsThickness, SerumInsulin, BMI, DiabetesPedigree and Age, and the
label vector y from the Diabetic column; the PatientID column is excluded
from both, so the selected data does not depend on it. -/
theorem training_scripts_feature_selection :
    featureColumns =
      ["Pregnancies", "PlasmaGlucose", "DiastolicBloodPressure", "TricepsThickness",
       "SerumInsulin", "BMI", "DiabetesPedigree", "Age"] ∧
    featureColumns.length = 8 ∧
    "PatientID" ∉ featureColumns ∧
    (∀ df : List Row, featuresOf df = df.map (fun r => featureColumns.map r)) ∧
    (∀ df : List Row, labelsOf df = df.map (fun r => r "Diabetic")) ∧
    (∀ r1 r2 : Row, (∀ c, c ≠ "PatientID" → r1 c = r2 c) →
      featureColumns.map r1 = featureColumns.map r2 ∧ r1 "Diabetic" = r2 "Diabetic") := by
  refine ⟨rfl, rfl, by decide, fun df => rfl, fun df => rfl, ?_⟩
  intro r1 r2 h
  constructor
  · refine List.map_congr_left ?_
    intro c hc
    refine h c ?_
    rintro rfl
    revert hc
    decide
  · refine h "Diabetic" ?_
    decide

/-- A concrete row whose PatientID is 5 and whose other columns are 1. -/
def rowA : Row := fun c => if c = "PatientID" then 5 else 1

/-- A concrete row whose PatientID is 99 and whose other columns are 1. -/
def rowB : Row := fun c => if c = "PatientID" then 99 else 1

/-- Witness for C5: two concrete rows differing only in PatientID select
the same features and label. -/
theorem training_scripts_feature_selection_witness :
    featureColumns.map rowA = featureColumns.map rowB ∧
      rowA "Diabetic" = rowB "Diabetic" :=
  training_scripts_feature_selection.2.2.2.2.2 rowA rowB
    (by
      intro c hc
      simp [rowA, rowB, hc])

/-! ### Claim C7: the metrics logged by the training script -/

/-- C7: each execution of the training script logs exactly the three
scalar metrics Regularization Rate, Accuracy and AUC, in that order (the
type of the logged values makes each a single number), and the logged
Accuracy is np.average(y_hat == y_test): the mean over the test set of
the indicator that the prediction equals the true label. -/
theorem training_script_logs_three_metrics (split : SplitFn) (fit : FitFn)
    (aucFn : AucFn) (df : List Row) (regArg : Option ℚ) :
    ((diabetes_training split fit aucFn df).logs.map Prod.fst =
      ["Regularization Rate", "Accuracy", "AUC"]) ∧
    ((diabetes_training_params split fit aucFn regArg df).logs.map Prod.fst =
      ["Regularization Rate", "Accuracy", "AUC"]) ∧
    (diabetes_training split fit aucFn df).logs.length = 3 ∧
    (∀ (s : SplitResult) (m : FittedModel) (yHat : List ℚ),
      s = plainScriptSplit split df →
      m = fit (1 / (1/100 : ℚ)) s.xTrain s.yTrain →
      yHat = s.xTest.map m.predict →
      yHat.length = s.yTest.length →
      (diabetes_training split fit aucFn df).logs.get? 1 =
        some ("Accuracy", (eqIndicator yHat s.yTest).sum / (s.yTest.length : ℚ))) := by
  refine ⟨rfl, rfl, rfl, ?_⟩
  intro s m yHat hs hm hy hlen
  subst hs hm hy
  rw [diabetes_training]
  simp only [List.get?]
  rw [npAverage]
  rw [eqIndicator, List.length_zipWith, hlen, min_self]

/-- A trivial interpretation of train_test_split that puts everything in
the test set. -/
def constSplit : SplitFn := fun _ _ X y => ⟨[], X, [], y⟩

/-- A trivial fitted-model interpretation predicting 0 everywhere. -/
def constFit : FitFn := fun _ _ _ => ⟨fun _ => 0, fun _ => 0⟩

/-- A trivial AUC interpretation. -/
def constAuc : AucFn := fun _ _ => 0

/-- A one-row dataframe with all columns 0. -/
def tinyDf : List Row := [fun _ => 0]

/-- Witness for C7 at concrete library interpretations and data. -/
theorem training_script_logs_three_metrics_witness :
    ((diabetes_training constSplit constFit constAuc tinyDf).logs.map Prod.fst =
      ["Regularization Rate", "Accuracy", "AUC"]) ∧
    ((diabetes_training_params constSplit constFit constAuc (some (1/10)) tinyDf).logs.map
        Prod.fst = ["Regularization Rate", "Accuracy", "AUC"]) ∧
    (diabetes_training constSplit constFit constAuc tinyDf).logs.length = 3 ∧
    (∀ (s : SplitResult) (m : FittedModel) (yHat : List ℚ),
      s = plainScriptSplit constSplit tinyDf →
      m = constFit (1 / (1/100 : ℚ)) s.xTrain s.yTrain →
      yHat = s.xTest.map m.predict →
      yHat.length = s.yTest.length →
      (diabetes_training constSplit constFit constAuc tinyDf).logs.get? 1 =
        some ("Accuracy", (eqIndicator yHat s.yTest).sum / (s.yTest.length : ℚ))) :=
  training_script_logs_three_metrics constSplit constFit constAuc tinyDf (some (1/10))

/-! ### Claim C10: both scripts split the data identically -/

/-- C10: both training scripts call train_test_split with test_size 0.30
and random_state 0, so under any interpretation of the library (any two
interpretations that agree on that one argument tuple, modelling two
executions) the plain and the parameterized script obtain identical
X_train, X_test, y_train and y_test, and in particular evaluate their
models on the same test rows. -/
theorem train_test_split_deterministic_common (f g : SplitFn) (df : List Row)
    (h : f (30/100) 0 (featuresOf df) (labelsOf df) =
         g (30/100) 0 (featuresOf df) (labelsOf df)) :
    plainScriptSplit f df = f (30/100) 0 (featuresOf df) (labelsOf df) ∧
    paramScriptSplit g df = g (30/100) 0 (featuresOf df) (labelsOf df) ∧
    plainScriptSplit f df = paramScriptSplit g df ∧
    (plainScriptSplit f df).xTest = (paramScriptSplit g df).xTest ∧
    (plainScriptSplit f df).yTest = (paramScriptSplit g df).yTest := by
  refine ⟨rfl, rfl, h, ?_, ?_⟩ <;> rw [plainScriptSplit, paramScriptSplit, h]

/-- Witness for C10 with one concrete interpretation used for both runs. -/
theorem train_test_split_deterministic_common_witness :
    plainScriptSplit constSplit tinyDf =
      constSplit (30/100) 0 (featuresOf tinyDf) (labelsOf tinyDf) ∧
    paramScriptSplit constSplit tinyDf =
      constSplit (30/100) 0 (featuresOf tinyDf) (labelsOf tinyDf) ∧
    plainScriptSplit constSplit tinyDf = paramScriptSplit constSplit tinyDf ∧
    (plainScriptSplit constSplit tinyDf).xTest =
      (paramScriptSplit constSplit tinyDf).xTest ∧
    (plainScriptSplit constSplit tinyDf).yTest =
      (paramScriptSplit constSplit tinyDf).yTest :=
  train_test_split_deterministic_common constSplit constSplit tinyDf rfl

end MslearnDp100
